import Mathlib

/-!
Shallow embedding of `skopt/dummy_opt.py` (`dummy_minimize`): random search
by uniform sampling.  Python values that the driver inspects dynamically are
modelled by the inductive `PyObj`; the external collaborators (the `Space`
constructor and its `rvs` sampler, `sklearn`'s `check_random_state`, and the
objective `func`) are opaque parameters, exactly as the driver consumes them.
Scalars are modelled as integers (`PyObj.num`); the only arithmetic the
driver itself performs on objective values is comparison inside `np.argmin`.

Besides the `OptimizeResult`, the embedding returns an instrumentation
record (`RunOut`): the ordered list of points at which the objective was
invoked, and the `n_samples` argument passed to `space.rvs` (if that call
was reached).  Both are directly observable behaviours of the Python code
(objective calls are external side effects; the sampler receives the
argument), not inventions of the model.
-/

set_option autoImplicit false

namespace SkoptDummy

/-- A dynamically typed Python value as far as `dummy_minimize` inspects it:
a numeric scalar, a list, a tuple (subscriptable and iterable but not a
`list`), or an opaque object that is neither subscriptable, iterable, nor a
number. -/
inductive PyObj : Type where
  | num (v : Int)
  | pylist (xs : List PyObj)
  | tuple (xs : List PyObj)
  | obj


/-- The distinct failure modes of `dummy_minimize`:
`typeError` — subscripting a non-subscriptable object (`x0[0]` on a scalar);
`indexError` — out-of-range indexing (`x0[0]` on an empty sequence, or
`X_left[i]` beyond the sampled list);
`invalidX0Type` — the explicit `ValueError("Expected x0 to be a list ...")`;
`nonScalarReturn` — `ValueError("The function to be optimized should return a scalar")`;
`invalidY0Type` — `ValueError("Expected y0 to be an iterable or a scalar ...")`;
`lengthMismatch` — `ValueError("x0 and y0 should have the same length")`;
`nonScalarY0` — `ValueError("y0 elements should be scalars")`;
`emptyArgmin` — `np.argmin` on an empty sequence. -/
inductive OptError : Type where
  | typeError
  | indexError
  | invalidX0Type
  | nonScalarReturn
  | invalidY0Type
  | lengthMismatch
  | nonScalarY0
  | emptyArgmin


/-- `np.isscalar`: true exactly on numeric scalars in this model. -/
def np_isscalar : PyObj → Bool
  | .num _ => true
  | _ => false

/-- `isinstance(-, list)`. -/
def isList : PyObj → Bool
  | .pylist _ => true
  | _ => false

/-- `isinstance(-, numbers.Number)`. -/
def isNumber : PyObj → Bool
  | .num _ => true
  | _ => false

/-- `isinstance(-, Iterable)`, returning the elements (`list(-)`) when the
value is iterable. -/
def iterElems : PyObj → Option (List PyObj)
  | .pylist xs => some xs
  | .tuple xs => some xs
  | _ => none

/-- Python subscripting `o[i]` (for the nonnegative indices the driver
uses): `IndexError` past the end of a sequence, `TypeError` on a
non-subscriptable value. -/
def getItem : PyObj → Nat → Except OptError PyObj
  | .pylist xs, i =>
    match xs.get? i with
    | some v => .ok v
    | none => .error .indexError
  | .tuple xs, i =>
    match xs.get? i with
    | some v => .ok v
    | none => .error .indexError
  | _, _ => .error .typeError

/-- Lines 74-81 of `dummy_opt.py`:

    if x0 is None:
        x0 = []
    elif not isinstance(x0[0], list):
        x0 = [x0]
    if not isinstance(x0, list):
        raise ValueError("Expected x0 to be a list, but got %s" % type(x0))

Returns the normalized list of initial points.  Note that after the wrap
`x0 = [x0]` the final `isinstance(x0, list)` check always passes, so it can
only fire when `x0[0]` is a list while `x0` itself is not. -/
def normalize_x0 : Option PyObj → Except OptError (List PyObj)
  | none => .ok []
  | some o =>
    match getItem o 0 with
    | .error e => .error e
    | .ok first =>
      if isList first then
        match o with
        | .pylist xs => .ok xs
        | _ => .error .invalidX0Type
      else
        .ok [o]

/-- Lines 90-93 of `dummy_opt.py` (the `elif x0:` branch): coerce `y0` to a
list — `list(y0)` when iterable, `[y0]` when a number, else `ValueError`. -/
def coerce_y0 (y0 : PyObj) : Except OptError (List PyObj) :=
  match iterElems y0 with
  | some ys => .ok ys
  | none => if isNumber y0 then .ok [y0] else .error .invalidY0Type

/-- Lines 94-101 of `dummy_opt.py`: after coercion, check the length against
`x0` and that every element of `y0` is a scalar. -/
def validate_y0 (x0 : List PyObj) (y0 : PyObj) : Except OptError (List PyObj) :=
  match coerce_y0 y0 with
  | .error e => .error e
  | .ok ys =>
    if x0.length ≠ ys.length then .error .lengthMismatch
    else if ¬ (ys.all np_isscalar) then .error .nonScalarY0
    else .ok ys

/-- The ordering `np.argmin` uses on the value sequence; objective values
are numeric scalars in every run the driver validates, and the model leaves
the comparison false on anything else. -/
def pyLt : PyObj → PyObj → Bool
  | .num a, .num b => decide (a < b)
  | _, _ => false

/-- `np.argmin`: index of the minimum, first occurrence on ties. -/
def argminIdx : List PyObj → Nat
  | [] => 0
  | [_] => 0
  | y :: ys =>
    let j := argminIdx ys
    match ys.get? j with
    | none => 0
    | some yj => if pyLt yj y then j + 1 else 0

/-- Python `range(lo, hi)` for the nonnegative lower bounds the driver uses
(`hi` is the possibly negative `n_calls`). -/
def pyRange (lo : Nat) (hi : Int) : List Nat :=
  List.range' lo (hi - lo).toNat

/-- The list comprehension `[func(X_left[i]) for i in range(lo, hi)]`:
returns the points at which `func` was actually invoked (in order) together
with either the list of values or the `IndexError` that interrupted the
comprehension. -/
def evalIdx (func : PyObj → PyObj) (X : List PyObj) :
    List Nat → List PyObj × Except OptError (List PyObj)
  | [] => ([], .ok [])
  | i :: is =>
    match X.get? i with
    | none => ([], .error .indexError)
    | some p =>
      match evalIdx func X is with
      | (cs, .error e) => (p :: cs, .error e)
      | (cs, .ok vs) => (p :: cs, .ok (func p :: vs))

/-- The `scipy.optimize.OptimizeResult` fields `dummy_minimize` fills in.
`Space` is the opaque external search-space object stored in `res.space`;
`models` is the always-empty surrogate-model list. -/
structure OptResult (Space : Type) : Type where
  x : PyObj
  fun' : PyObj
  func_vals : List PyObj
  x_iters : List PyObj
  space : Space
  models : List Unit


/-- One run of `dummy_minimize`, instrumented: `calls` is the ordered list
of points at which the objective was invoked, `sampleReq` the `n_samples`
argument handed to `space.rvs` (`none` when the run failed before reaching
the sampler), and `result` the returned `OptimizeResult` or the error
raised. -/
structure RunOut (Space : Type) : Type where
  calls : List PyObj
  sampleReq : Option Int
  result : Except OptError (OptResult Space)


/-- Lines 115-122 of `dummy_opt.py`: `best = np.argmin(y)`, then assembly of
the result from `X[best]`, `y[best]` and the full sequences. -/
def assemble {Space : Type} (space : Space) (X y : List PyObj) :
    Except OptError (OptResult Space) :=
  if y.isEmpty then .error .emptyArgmin
  else
    match X.get? (argminIdx y), y.get? (argminIdx y) with
    | some xb, some yb => .ok ⟨xb, yb, y, X, space, []⟩
    | _, _ => .error .indexError

/-- Lines 105-122 of `dummy_opt.py`: draw `X_left = space.rvs(n_samples=n_calls,
random_state=rng)` in a single call, evaluate `func` on the fresh points —
with the fast-fail scalarity check on `func(X_left[0])` exactly when no
initial observations exist (`if y0:` false) — then merge and assemble.
`calls0` are the objective invocations already made on initial points. -/
def samplePhase {Space RNG : Type} (Space_rvs : Space → Int → RNG → List PyObj)
    (func : PyObj → PyObj) (space : Space) (rng : RNG)
    (n_calls : Int) (x0 y0 : List PyObj) (calls0 : List PyObj) : RunOut Space :=
  let X_left := Space_rvs space n_calls rng
  if y0.isEmpty then
    match X_left.get? 0 with
    | none => ⟨calls0, some n_calls, .error .indexError⟩
    | some q =>
      if ¬ np_isscalar (func q) then
        ⟨calls0 ++ [q], some n_calls, .error .nonScalarReturn⟩
      else
        match evalIdx func X_left (pyRange 1 n_calls) with
        | (cs, .error e) => ⟨calls0 ++ q :: cs, some n_calls, .error e⟩
        | (cs, .ok vs) =>
          ⟨calls0 ++ q :: cs, some n_calls,
            assemble space (x0 ++ X_left) (y0 ++ func q :: vs)⟩
  else
    match evalIdx func X_left (pyRange 0 n_calls) with
    | (cs, .error e) => ⟨calls0 ++ cs, some n_calls, .error e⟩
    | (cs, .ok vs) =>
      ⟨calls0 ++ cs, some n_calls, assemble space (x0 ++ X_left) (y0 ++ vs)⟩

/-- `dummy_minimize(func, dimensions, n_calls, x0, y0, random_state)` from
`skopt/dummy_opt.py`, parametric in the external collaborators:
`check_random_state` (sklearn), the `Space` constructor and its `rvs`
sampler, and the objective `func`. -/
def dummy_minimize {Dims Space RNG : Type}
    (Space_ctor : Dims → Space) (Space_rvs : Space → Int → RNG → List PyObj)
    (check_random_state : Option Int → RNG) (func : PyObj → PyObj)
    (dimensions : Dims) (n_calls : Int) (x0 y0 : Option PyObj)
    (random_state : Option Int) : RunOut Space :=
  let rng := check_random_state random_state
  let space := Space_ctor dimensions
  match normalize_x0 x0 with
  | .error e => ⟨[], none, .error e⟩
  | .ok x0l =>
    match y0, x0l with
    | none, p :: rest =>
      if ¬ np_isscalar (func p) then
        ⟨[p], none, .error .nonScalarReturn⟩
      else
        let y0l := func p :: rest.map func
        samplePhase Space_rvs func space rng (n_calls - y0l.length)
          (p :: rest) y0l (p :: rest)
    | some y0obj, p :: rest =>
      match validate_y0 (p :: rest) y0obj with
      | .error e => ⟨[], none, .error e⟩
      | .ok y0l => samplePhase Space_rvs func space rng n_calls (p :: rest) y0l []
    | _, [] => samplePhase Space_rvs func space rng n_calls [] [] []


def uctor : Unit → Unit := fun _ => ()

def urng : Option Int → Unit := fun _ => ()

def constSampler (p : PyObj) : Unit → Int → Unit → List PyObj :=
  fun _ n _ => List.replicate n.toNat p

def pt0 : PyObj := .pylist [.num 0]

/-! ### Basic lemmas about the embedded operations -/

theorem evalIdx_range' (func : PyObj → PyObj) (X : List PyObj) :
    ∀ (k s : Nat), s + k ≤ X.length →
      evalIdx func X (List.range' s k) =
        ((X.drop s).take k, .ok (((X.drop s).take k).map func))
  | 0, s, _ => by simp [evalIdx]
  | k + 1, s, h => by
    have hs : s < X.length := by omega
    have hrec := evalIdx_range' func X k (s + 1) (by omega)
    rw [show List.range' s (k + 1) = s :: List.range' (s + 1) k from
      List.range'_succ s k 1]
    rw [List.drop_eq_getElem_cons hs]
    simp only [evalIdx, List.get?_eq_getElem?, List.getElem?_eq_getElem hs, hrec,
      List.take_succ_cons, List.map_cons]

theorem argminIdx_cons_cons (y z yj : PyObj) (ys : List PyObj)
    (hyj : (z :: ys).get? (argminIdx (z :: ys)) = some yj) :
    argminIdx (y :: z :: ys) = if pyLt yj y then argminIdx (z :: ys) + 1 else 0 := by
  have h : argminIdx (y :: z :: ys) =
      match (z :: ys).get? (argminIdx (z :: ys)) with
      | none => 0
      | some w => if pyLt w y then argminIdx (z :: ys) + 1 else 0 := rfl
  rw [h, hyj]

theorem argminIdx_lt : ∀ (ys : List PyObj), ys ≠ [] → argminIdx ys < ys.length
  | [y], _ => by simp [argminIdx]
  | y :: z :: ys, _ => by
    have ih := argminIdx_lt (z :: ys) (by simp)
    obtain ⟨yj, hyj⟩ : ∃ w, (z :: ys).get? (argminIdx (z :: ys)) = some w :=
      ⟨_, by rw [List.get?_eq_getElem?, List.getElem?_eq_getElem ih]⟩
    rw [argminIdx_cons_cons y z yj ys hyj]
    split
    · exact Nat.succ_lt_succ ih
    · simp

theorem argminIdx_get?_isSome (ys : List PyObj) (h : ys ≠ []) :
    ∃ ym, ys.get? (argminIdx ys) = some ym := by
  have := argminIdx_lt ys h
  exact ⟨_, by rw [List.get?_eq_getElem?, List.getElem?_eq_getElem this]⟩

theorem np_isscalar_num {v : PyObj} (h : np_isscalar v = true) : ∃ a, v = .num a := by
  cases v with
  | num a => exact ⟨a, rfl⟩
  | pylist xs => simp [np_isscalar] at h
  | tuple xs => simp [np_isscalar] at h
  | obj => simp [np_isscalar] at h

theorem pyLt_num (a b : Int) : pyLt (.num a) (.num b) = decide (a < b) := rfl

/-- `np.argmin` specification on all-scalar value lists: the selected value
is a minimum, and every earlier entry is strictly larger (first-occurrence
tie-break). -/
theorem argminIdx_spec :
    ∀ (ys : List PyObj), (∀ v ∈ ys, np_isscalar v = true) →
      ∀ ym, ys.get? (argminIdx ys) = some ym →
        (∀ v ∈ ys, pyLt v ym = false) ∧
        (∀ j, j < argminIdx ys → ∀ v, ys.get? j = some v → pyLt ym v = true)
  | [], _, ym, hget => by simp [argminIdx] at hget
  | [y], hsc, ym, hget => by
    have h0 : argminIdx [y] = 0 := rfl
    rw [h0] at hget
    have hym : y = ym := by
      have h1 : ([y] : List PyObj).get? 0 = some y := rfl
      rw [h1] at hget
      exact Option.some.inj hget
    subst hym
    obtain ⟨a, ha⟩ := np_isscalar_num (hsc y (List.mem_cons_self y []))
    refine ⟨?_, ?_⟩
    · intro v hv
      have hv' : v = y := by simpa using hv
      subst hv'
      subst ha
      simp [pyLt_num]
    · intro j hj
      rw [h0] at hj
      exact absurd hj (Nat.not_lt_zero j)
  | y :: z :: ys, hsc, ym, hget => by
    have hne : (z :: ys) ≠ [] := by simp
    obtain ⟨yj, hyj⟩ := argminIdx_get?_isSome (z :: ys) hne
    have hsc' : ∀ v ∈ z :: ys, np_isscalar v = true :=
      fun v hv => hsc v (List.mem_cons_of_mem _ hv)
    have ih := argminIdx_spec (z :: ys) hsc' yj hyj
    obtain ⟨a, ha⟩ := np_isscalar_num (hsc y (List.mem_cons_self y (z :: ys)))
    have hyjmem : yj ∈ z :: ys := List.get?_mem hyj
    obtain ⟨b, hb⟩ := np_isscalar_num (hsc' yj hyjmem)
    rw [argminIdx_cons_cons y z yj ys hyj] at hget ⊢
    by_cases hlt : pyLt yj y = true
    · rw [if_pos hlt] at hget ⊢
      have hstep : (y :: z :: ys).get? (argminIdx (z :: ys) + 1) =
          (z :: ys).get? (argminIdx (z :: ys)) := rfl
      rw [hstep, hyj] at hget
      have hym : yj = ym := Option.some.inj hget
      subst hym
      constructor
      · intro v hv
        rcases List.mem_cons.mp hv with rfl | hv
        · subst ha hb
          simp only [pyLt_num, decide_eq_true_eq] at hlt
          simp only [pyLt_num, decide_eq_false_iff_not]
          omega
        · exact ih.1 v hv
      · intro j hj v hgv
        cases j with
        | zero =>
          have hvy : v = y := by
            have h1 : (y :: z :: ys).get? 0 = some y := rfl
            rw [h1] at hgv
            exact (Option.some.inj hgv).symm
          subst hvy
          exact hlt
        | succ j =>
          have hstep2 : (y :: z :: ys).get? (j + 1) = (z :: ys).get? j := rfl
          rw [hstep2] at hgv
          exact ih.2 j (by omega) v hgv
    · rw [if_neg hlt] at hget ⊢
      have hym : y = ym := by
        have h1 : (y :: z :: ys).get? 0 = some y := rfl
        rw [h1] at hget
        exact Option.some.inj hget
      subst hym
      refine ⟨?_, fun j hj => absurd hj (Nat.not_lt_zero j)⟩
      intro v hv
      rcases List.mem_cons.mp hv with rfl | hv
      · subst ha; simp [pyLt_num]
      · obtain ⟨c, hc⟩ := np_isscalar_num (hsc' v hv)
        have h1 : pyLt v yj = false := ih.1 v hv
        subst ha hb hc
        simp only [pyLt_num, decide_eq_false_iff_not] at h1 ⊢
        simp only [pyLt_num, decide_eq_true_eq, Bool.not_eq_true,
          decide_eq_false_iff_not] at hlt
        omega

/-! ### Lemmas about result assembly and the sampling phase -/

theorem assemble_eq_ok {Space : Type} {space : Space} {X y : List PyObj}
    {res : OptResult Space} (h : assemble space X y = .ok res) :
    res.func_vals = y ∧ res.x_iters = X ∧ res.space = space ∧ res.models = [] ∧
    y.get? (argminIdx y) = some res.fun' ∧ X.get? (argminIdx y) = some res.x := by
  unfold assemble at h
  split at h
  · simp at h
  · split at h
    next xb yb hx hy =>
      obtain rfl : OptResult.mk xb yb y X space [] = res := Except.ok.inj h
      exact ⟨rfl, rfl, rfl, rfl, hy, hx⟩
    next => simp at h

theorem assemble_ok {Space : Type} (space : Space) (X y : List PyObj)
    (hne : y ≠ []) (hle : y.length ≤ X.length) :
    ∃ xb yb, X.get? (argminIdx y) = some xb ∧ y.get? (argminIdx y) = some yb ∧
      assemble space X y = .ok ⟨xb, yb, y, X, space, []⟩ := by
  have hj := argminIdx_lt y hne
  have hjX : argminIdx y < X.length := lt_of_lt_of_le hj hle
  have hgy : y.get? (argminIdx y) = some y[argminIdx y] := by
    rw [List.get?_eq_getElem?, List.getElem?_eq_getElem hj]
  have hgx : X.get? (argminIdx y) = some X[argminIdx y] := by
    rw [List.get?_eq_getElem?, List.getElem?_eq_getElem hjX]
  refine ⟨_, _, hgx, hgy, ?_⟩
  unfold assemble
  rw [if_neg (by simp only [List.isEmpty_iff]; exact hne)]
  rw [hgx, hgy]

theorem samplePhase_sampleReq {Space RNG : Type}
    (Space_rvs : Space → Int → RNG → List PyObj) (func : PyObj → PyObj)
    (space : Space) (rng : RNG) (n_calls : Int) (x0 y0 calls0 : List PyObj) :
    (samplePhase Space_rvs func space rng n_calls x0 y0 calls0).sampleReq =
      some n_calls := by
  simp only [samplePhase]
  repeat' split
  all_goals rfl

theorem samplePhase_pos {Space RNG : Type}
    (Space_rvs : Space → Int → RNG → List PyObj) (func : PyObj → PyObj)
    (space : Space) (rng : RNG) (n_calls : Int) (x0 y0 calls0 : List PyObj)
    (hy : y0 ≠ [])
    (hlen : (Space_rvs space n_calls rng).length = n_calls.toNat) :
    samplePhase Space_rvs func space rng n_calls x0 y0 calls0 =
      ⟨calls0 ++ Space_rvs space n_calls rng, some n_calls,
        assemble space (x0 ++ Space_rvs space n_calls rng)
          (y0 ++ (Space_rvs space n_calls rng).map func)⟩ := by
  have he := evalIdx_range' func (Space_rvs space n_calls rng) n_calls.toNat 0
    (by omega)
  rw [List.drop_zero, List.take_of_length_le (le_of_eq hlen)] at he
  have hr : pyRange 0 n_calls = List.range' 0 n_calls.toNat := by
    unfold pyRange
    norm_num
  simp only [samplePhase]
  rw [if_neg (by simp only [List.isEmpty_iff]; exact hy)]
  rw [hr, he]

theorem samplePhase_noInit {Space RNG : Type}
    (Space_rvs : Space → Int → RNG → List PyObj) (func : PyObj → PyObj)
    (space : Space) (rng : RNG) (n_calls : Int) (x0 calls0 : List PyObj)
    (q : PyObj) (qs : List PyObj)
    (hq : Space_rvs space n_calls rng = q :: qs)
    (hlen : (Space_rvs space n_calls rng).length = n_calls.toNat)
    (hscal : np_isscalar (func q) = true) :
    samplePhase Space_rvs func space rng n_calls x0 [] calls0 =
      ⟨calls0 ++ q :: qs, some n_calls,
        assemble space (x0 ++ q :: qs) ((q :: qs).map func)⟩ := by
  have hn : n_calls.toNat = qs.length + 1 := by
    rw [hq] at hlen
    simp only [List.length_cons] at hlen
    omega
  have he := evalIdx_range' func (Space_rvs space n_calls rng) (n_calls - 1).toNat 1
    (by omega)
  have hr : pyRange 1 n_calls = List.range' 1 (n_calls - 1).toNat := rfl
  rw [hq] at he
  have h2 : ((q :: qs).drop 1) = qs := rfl
  rw [h2, List.take_of_length_le (by omega)] at he
  simp only [samplePhase]
  rw [hq]
  simp only [List.isEmpty_nil, if_true, List.get?_cons_zero, hscal,
    Bool.not_true, Bool.false_eq_true, if_false, hr, he, List.nil_append,
    List.map_cons]
  simp

theorem samplePhase_result_ok {Space RNG : Type}
    {Space_rvs : Space → Int → RNG → List PyObj} {func : PyObj → PyObj}
    {space : Space} {rng : RNG} {n_calls : Int} {x0 y0 calls0 : List PyObj}
    {res : OptResult Space}
    (h : (samplePhase Space_rvs func space rng n_calls x0 y0 calls0).result =
      .ok res) :
    ∃ y, assemble space (x0 ++ Space_rvs space n_calls rng) y = .ok res := by
  simp only [samplePhase] at h
  split at h
  · split at h
    · simp at h
    · split at h
      · simp at h
      · split at h
        · simp at h
        · exact ⟨_, h⟩
  · split at h
    · simp at h
    · exact ⟨_, h⟩

/-! ### Path lemmas for the driver -/

theorem dummy_minimize_normErr {Dims Space RNG : Type}
    (Space_ctor : Dims → Space) (Space_rvs : Space → Int → RNG → List PyObj)
    (check_random_state : Option Int → RNG) (func : PyObj → PyObj)
    (dimensions : Dims) (n_calls : Int) (x0 y0 : Option PyObj)
    (rs : Option Int) (e : OptError) (hnorm : normalize_x0 x0 = .error e) :
    dummy_minimize Space_ctor Space_rvs check_random_state func dimensions
      n_calls x0 y0 rs = ⟨[], none, .error e⟩ := by
  simp only [dummy_minimize, hnorm]

theorem dummy_minimize_pathA {Dims Space RNG : Type}
    (Space_ctor : Dims → Space) (Space_rvs : Space → Int → RNG → List PyObj)
    (check_random_state : Option Int → RNG) (func : PyObj → PyObj)
    (dimensions : Dims) (n_calls : Int) (x0 : Option PyObj) (rs : Option Int)
    (p : PyObj) (rest : List PyObj) (hnorm : normalize_x0 x0 = .ok (p :: rest)) :
    dummy_minimize Space_ctor Space_rvs check_random_state func dimensions
      n_calls x0 none rs =
      if np_isscalar (func p) then
        samplePhase Space_rvs func (Space_ctor dimensions) (check_random_state rs)
          (n_calls - (rest.length + 1)) (p :: rest) (func p :: rest.map func)
          (p :: rest)
      else ⟨[p], none, .error .nonScalarReturn⟩ := by
  simp only [dummy_minimize, hnorm]
  by_cases hscal : np_isscalar (func p) = true
  · simp only [hscal, Bool.not_true, Bool.false_eq_true, if_false, if_true,
      List.length_cons, List.length_map]
    norm_num
  · simp only [hscal, Bool.not_false, Bool.false_eq_true, if_true, if_false]
    simp [hscal]

theorem dummy_minimize_pathB_ok {Dims Space RNG : Type}
    (Space_ctor : Dims → Space) (Space_rvs : Space → Int → RNG → List PyObj)
    (check_random_state : Option Int → RNG) (func : PyObj → PyObj)
    (dimensions : Dims) (n_calls : Int) (x0 : Option PyObj) (rs : Option Int)
    (p : PyObj) (rest : List PyObj) (yv : PyObj) (y0l : List PyObj)
    (hnorm : normalize_x0 x0 = .ok (p :: rest))
    (hval : validate_y0 (p :: rest) yv = .ok y0l) :
    dummy_minimize Space_ctor Space_rvs check_random_state func dimensions
      n_calls x0 (some yv) rs =
      samplePhase Space_rvs func (Space_ctor dimensions) (check_random_state rs)
        n_calls (p :: rest) y0l [] := by
  simp only [dummy_minimize, hnorm, hval]

theorem dummy_minimize_pathB_err {Dims Space RNG : Type}
    (Space_ctor : Dims → Space) (Space_rvs : Space → Int → RNG → List PyObj)
    (check_random_state : Option Int → RNG) (func : PyObj → PyObj)
    (dimensions : Dims) (n_calls : Int) (x0 : Option PyObj) (rs : Option Int)
    (p : PyObj) (rest : List PyObj) (yv : PyObj) (e : OptError)
    (hnorm : normalize_x0 x0 = .ok (p :: rest))
    (hval : validate_y0 (p :: rest) yv = .error e) :
    dummy_minimize Space_ctor Space_rvs check_random_state func dimensions
      n_calls x0 (some yv) rs = ⟨[], none, .error e⟩ := by
  simp only [dummy_minimize, hnorm, hval]

theorem dummy_minimize_pathC {Dims Space RNG : Type}
    (Space_ctor : Dims → Space) (Space_rvs : Space → Int → RNG → List PyObj)
    (check_random_state : Option Int → RNG) (func : PyObj → PyObj)
    (dimensions : Dims) (n_calls : Int) (x0 y0 : Option PyObj)
    (rs : Option Int) (hnorm : normalize_x0 x0 = .ok []) :
    dummy_minimize Space_ctor Space_rvs check_random_state func dimensions
      n_calls x0 y0 rs =
      samplePhase Space_rvs func (Space_ctor dimensions) (check_random_state rs)
        n_calls [] [] [] := by
  cases y0 <;> simp only [dummy_minimize, hnorm]

/-- Every successful run goes through `assemble` on `x0 ++ X_left`, where
`X_left` is the output of the single `space.rvs` call whose argument is the
recorded `sampleReq`. -/
theorem dummy_minimize_ok_struct {Dims Space RNG : Type}
    {Space_ctor : Dims → Space} {Space_rvs : Space → Int → RNG → List PyObj}
    {check_random_state : Option Int → RNG} {func : PyObj → PyObj}
    {dimensions : Dims} {n_calls : Int} {x0 y0 : Option PyObj}
    {rs : Option Int} {res : OptResult Space}
    (h : (dummy_minimize Space_ctor Space_rvs check_random_state func dimensions
      n_calls x0 y0 rs).result = .ok res) :
    ∃ x0l r y, normalize_x0 x0 = .ok x0l ∧
      (dummy_minimize Space_ctor Space_rvs check_random_state func dimensions
        n_calls x0 y0 rs).sampleReq = some r ∧
      res.x_iters = x0l ++ Space_rvs (Space_ctor dimensions) r (check_random_state rs) ∧
      res.func_vals = y ∧
      assemble (Space_ctor dimensions)
        (x0l ++ Space_rvs (Space_ctor dimensions) r (check_random_state rs)) y =
        .ok res := by
  cases hnorm : normalize_x0 x0 with
  | error e =>
    rw [dummy_minimize_normErr _ _ _ _ _ _ _ _ _ _ hnorm] at h
    simp at h
  | ok x0l =>
    cases x0l with
    | nil =>
      rw [dummy_minimize_pathC _ _ _ _ _ _ _ _ _ hnorm] at h ⊢
      obtain ⟨y, hy⟩ := samplePhase_result_ok h
      have hx := assemble_eq_ok hy
      refine ⟨[], n_calls, y, rfl, samplePhase_sampleReq _ _ _ _ _ _ _ _, ?_, ?_, ?_⟩
      · rw [hx.2.1]
      · exact hx.1
      · exact hy
    | cons p rest =>
      cases y0 with
      | none =>
        rw [dummy_minimize_pathA _ _ _ _ _ _ _ _ _ _ hnorm] at h ⊢
        by_cases hscal : np_isscalar (func p) = true
        · rw [if_pos hscal] at h ⊢
          obtain ⟨y, hy⟩ := samplePhase_result_ok h
          have hx := assemble_eq_ok hy
          refine ⟨p :: rest, n_calls - (rest.length + 1), y, rfl,
            samplePhase_sampleReq _ _ _ _ _ _ _ _, ?_, ?_, ?_⟩
          · rw [hx.2.1]
          · exact hx.1
          · exact hy
        · rw [if_neg hscal] at h
          simp at h
      | some yv =>
        cases hval : validate_y0 (p :: rest) yv with
        | error e =>
          rw [dummy_minimize_pathB_err _ _ _ _ _ _ _ _ _ _ _ _ hnorm hval] at h
          simp at h
        | ok y0l =>
          rw [dummy_minimize_pathB_ok _ _ _ _ _ _ _ _ _ _ _ _ hnorm hval] at h ⊢
          obtain ⟨y, hy⟩ := samplePhase_result_ok h
          have hx := assemble_eq_ok hy
          refine ⟨p :: rest, n_calls, y, rfl,
            samplePhase_sampleReq _ _ _ _ _ _ _ _, ?_, ?_, ?_⟩
          · rw [hx.2.1]
          · exact hx.1
          · exact hy

theorem validate_y0_ok {x0 : List PyObj} {yv : PyObj} {ys : List PyObj}
    (h : validate_y0 x0 yv = .ok ys) :
    ys.length = x0.length ∧ ys.all np_isscalar = true := by
  unfold validate_y0 at h
  split at h
  · simp at h
  · split at h
    · simp at h
    · split at h
      · simp at h
      · next h1 h2 =>
        obtain rfl := Except.ok.inj h
        refine ⟨(not_ne_iff.mp h1).symm, ?_⟩
        simpa using h2

theorem samplePhase_noInit_fail {Space RNG : Type}
    (Space_rvs : Space → Int → RNG → List PyObj) (func : PyObj → PyObj)
    (space : Space) (rng : RNG) (n_calls : Int) (x0 calls0 : List PyObj)
    (q : PyObj) (qs : List PyObj)
    (hq : Space_rvs space n_calls rng = q :: qs)
    (hscal : np_isscalar (func q) = false) :
    samplePhase Space_rvs func space rng n_calls x0 [] calls0 =
      ⟨calls0 ++ [q], some n_calls, .error .nonScalarReturn⟩ := by
  simp only [samplePhase]
  rw [hq]
  simp [hscal]

theorem dummy_minimize_congr_x0 {Dims Space RNG : Type}
    (Space_ctor : Dims → Space) (Space_rvs : Space → Int → RNG → List PyObj)
    (check_random_state : Option Int → RNG) (func : PyObj → PyObj)
    (dimensions : Dims) (n_calls : Int) (a b y0 : Option PyObj)
    (rs : Option Int) (hab : normalize_x0 a = normalize_x0 b) :
    dummy_minimize Space_ctor Space_rvs check_random_state func dimensions
      n_calls a y0 rs =
    dummy_minimize Space_ctor Space_rvs check_random_state func dimensions
      n_calls b y0 rs := by
  unfold dummy_minimize
  rw [hab]

/-- Full characterisation of a successful run on the computed-initial-values
path (`y0 = None`, nonempty `x0`), with a sampler returning exactly the
requested number of points. -/
theorem dummy_minimize_runA {Dims Space RNG : Type}
    (Space_ctor : Dims → Space) (Space_rvs : Space → Int → RNG → List PyObj)
    (check_random_state : Option Int → RNG) (func : PyObj → PyObj)
    (dimensions : Dims) (n_calls : Int) (x0 : Option PyObj) (rs : Option Int)
    (p : PyObj) (rest : List PyObj)
    (hnorm : normalize_x0 x0 = .ok (p :: rest))
    (hscal : np_isscalar (func p) = true)
    (hlen : (Space_rvs (Space_ctor dimensions) (n_calls - (rest.length + 1))
      (check_random_state rs)).length = (n_calls - (rest.length + 1)).toNat) :
    ∃ xb yb,
      dummy_minimize Space_ctor Space_rvs check_random_state func dimensions
        n_calls x0 none rs =
      ⟨(p :: rest) ++ Space_rvs (Space_ctor dimensions)
          (n_calls - (rest.length + 1)) (check_random_state rs),
       some (n_calls - (rest.length + 1)),
       .ok ⟨xb, yb,
         (func p :: rest.map func) ++ (Space_rvs (Space_ctor dimensions)
           (n_calls - (rest.length + 1)) (check_random_state rs)).map func,
         (p :: rest) ++ Space_rvs (Space_ctor dimensions)
           (n_calls - (rest.length + 1)) (check_random_state rs),
         Space_ctor dimensions, []⟩⟩ := by
  rw [dummy_minimize_pathA _ _ _ _ _ _ _ _ _ _ hnorm, if_pos hscal,
    samplePhase_pos _ _ _ _ _ _ _ _ (by simp) hlen]
  obtain ⟨xb, yb, hgx, hgy, ha⟩ := assemble_ok (Space_ctor dimensions)
    ((p :: rest) ++ Space_rvs (Space_ctor dimensions)
      (n_calls - (rest.length + 1)) (check_random_state rs))
    ((func p :: rest.map func) ++ (Space_rvs (Space_ctor dimensions)
      (n_calls - (rest.length + 1)) (check_random_state rs)).map func)
    (by simp) (by simp)
  rw [ha]
  exact ⟨xb, yb, rfl⟩

/-- Full characterisation of a successful run on the explicit-initial-values
path (`y0` supplied, nonempty `x0`): `n_calls` is NOT reduced by the number
of initial values. -/
theorem dummy_minimize_runB {Dims Space RNG : Type}
    (Space_ctor : Dims → Space) (Space_rvs : Space → Int → RNG → List PyObj)
    (check_random_state : Option Int → RNG) (func : PyObj → PyObj)
    (dimensions : Dims) (n_calls : Int) (x0 : Option PyObj) (rs : Option Int)
    (p : PyObj) (rest : List PyObj) (yv : PyObj) (y0l : List PyObj)
    (hnorm : normalize_x0 x0 = .ok (p :: rest))
    (hval : validate_y0 (p :: rest) yv = .ok y0l)
    (hlen : (Space_rvs (Space_ctor dimensions) n_calls
      (check_random_state rs)).length = n_calls.toNat) :
    ∃ xb yb,
      dummy_minimize Space_ctor Space_rvs check_random_state func dimensions
        n_calls x0 (some yv) rs =
      ⟨Space_rvs (Space_ctor dimensions) n_calls (check_random_state rs),
       some n_calls,
       .ok ⟨xb, yb,
         y0l ++ (Space_rvs (Space_ctor dimensions) n_calls
           (check_random_state rs)).map func,
         (p :: rest) ++ Space_rvs (Space_ctor dimensions) n_calls
           (check_random_state rs),
         Space_ctor dimensions, []⟩⟩ := by
  have hv := validate_y0_ok hval
  have hy0ne : y0l ≠ [] := by
    intro hc
    rw [hc] at hv
    simp at hv
  rw [dummy_minimize_pathB_ok _ _ _ _ _ _ _ _ _ _ _ _ hnorm hval,
    samplePhase_pos _ _ _ _ _ _ _ _ hy0ne hlen]
  obtain ⟨xb, yb, hgx, hgy, ha⟩ := assemble_ok (Space_ctor dimensions)
    ((p :: rest) ++ Space_rvs (Space_ctor dimensions) n_calls
      (check_random_state rs))
    (y0l ++ (Space_rvs (Space_ctor dimensions) n_calls
      (check_random_state rs)).map func)
    (by simp [hy0ne]) (by simp [hv.1]; omega)
  rw [ha]
  exact ⟨xb, yb, by simp⟩

/-- Full characterisation of a successful run with no initial observations:
a pure random search of `n_calls` fresh evaluations. -/
theorem dummy_minimize_runC {Dims Space RNG : Type}
    (Space_ctor : Dims → Space) (Space_rvs : Space → Int → RNG → List PyObj)
    (check_random_state : Option Int → RNG) (func : PyObj → PyObj)
    (dimensions : Dims) (n_calls : Int) (x0 y0 : Option PyObj)
    (rs : Option Int) (q : PyObj) (qs : List PyObj)
    (hnorm : normalize_x0 x0 = .ok [])
    (hq : Space_rvs (Space_ctor dimensions) n_calls (check_random_state rs) =
      q :: qs)
    (hlen : (Space_rvs (Space_ctor dimensions) n_calls
      (check_random_state rs)).length = n_calls.toNat)
    (hscal : np_isscalar (func q) = true) :
    ∃ xb yb,
      dummy_minimize Space_ctor Space_rvs check_random_state func dimensions
        n_calls x0 y0 rs =
      ⟨q :: qs, some n_calls,
       .ok ⟨xb, yb, (q :: qs).map func, q :: qs, Space_ctor dimensions, []⟩⟩ := by
  rw [dummy_minimize_pathC _ _ _ _ _ _ _ _ _ hnorm,
    samplePhase_noInit _ _ _ _ _ _ _ _ _ hq hlen hscal]
  obtain ⟨xb, yb, hgx, hgy, ha⟩ := assemble_ok (Space_ctor dimensions)
    (q :: qs) ((q :: qs).map func) (by simp) (by simp)
  refine ⟨xb, yb, ?_⟩
  simp only [List.nil_append]
  rw [ha]

/-! ### Claim theorems -/

/-- C1 (amended): for a successful run with initial points, when the initial
values are computed by evaluating the objective (`y0 = None`) the returned
`func_vals` and `x_iters` have length exactly `n_calls`, with the first `k`
entries the initial observations in the caller order followed by the fresh
samples; when the initial values are supplied explicitly the returned
sequences instead have length `k + n_calls` (the budget is NOT reduced by
the `k` supplied observations), again with the first `k` entries the
supplied observations followed by the fresh samples. -/
theorem trace_lengths {Dims Space RNG : Type}
    (Space_ctor : Dims → Space) (Space_rvs : Space → Int → RNG → List PyObj)
    (check_random_state : Option Int → RNG) (func : PyObj → PyObj)
    (dimensions : Dims) (n_calls : Int) (x0 : Option PyObj) (rs : Option Int)
    (p : PyObj) (rest : List PyObj)
    (hnorm : normalize_x0 x0 = .ok (p :: rest)) :
    (∀ (hscal : np_isscalar (func p) = true)
      (hk : ((p :: rest).length : Int) ≤ n_calls)
      (hlen : (Space_rvs (Space_ctor dimensions) (n_calls - (rest.length + 1))
        (check_random_state rs)).length = (n_calls - (rest.length + 1)).toNat),
      ∃ res, (dummy_minimize Space_ctor Space_rvs check_random_state func
          dimensions n_calls x0 none rs).result = .ok res ∧
        res.func_vals.length = n_calls.toNat ∧
        res.x_iters.length = n_calls.toNat ∧
        res.x_iters.take (p :: rest).length = p :: rest ∧
        res.func_vals.take (p :: rest).length = (p :: rest).map func ∧
        res.x_iters.drop (p :: rest).length =
          Space_rvs (Space_ctor dimensions) (n_calls - (rest.length + 1))
            (check_random_state rs) ∧
        res.func_vals.drop (p :: rest).length =
          (Space_rvs (Space_ctor dimensions) (n_calls - (rest.length + 1))
            (check_random_state rs)).map func) ∧
    (∀ yv y0l (hval : validate_y0 (p :: rest) yv = .ok y0l)
      (hlen : (Space_rvs (Space_ctor dimensions) n_calls
        (check_random_state rs)).length = n_calls.toNat),
      ∃ res, (dummy_minimize Space_ctor Space_rvs check_random_state func
          dimensions n_calls x0 (some yv) rs).result = .ok res ∧
        res.func_vals.length = (p :: rest).length + n_calls.toNat ∧
        res.x_iters.length = (p :: rest).length + n_calls.toNat ∧
        res.x_iters.take (p :: rest).length = p :: rest ∧
        res.func_vals.take (p :: rest).length = y0l ∧
        res.x_iters.drop (p :: rest).length =
          Space_rvs (Space_ctor dimensions) n_calls (check_random_state rs) ∧
        res.func_vals.drop (p :: rest).length =
          (Space_rvs (Space_ctor dimensions) n_calls
            (check_random_state rs)).map func) := by
  constructor
  · intro hscal hk hlen
    obtain ⟨xb, yb, hrun⟩ := dummy_minimize_runA Space_ctor Space_rvs
      check_random_state func dimensions n_calls x0 rs p rest hnorm hscal hlen
    refine ⟨_, by rw [hrun], ?_, ?_, ?_, ?_, ?_, ?_⟩
    · simp only [List.length_append, List.length_cons, List.length_map, hlen]
      simp only [List.length_cons] at hk
      omega
    · simp only [List.length_append, List.length_cons, hlen]
      simp only [List.length_cons] at hk
      omega
    · exact List.take_left _ _
    · exact List.take_left' (by simp)
    · exact List.drop_left _ _
    · exact List.drop_left' (by simp)
  · intro yv y0l hval hlen
    have hv := validate_y0_ok hval
    obtain ⟨xb, yb, hrun⟩ := dummy_minimize_runB Space_ctor Space_rvs
      check_random_state func dimensions n_calls x0 rs p rest yv y0l
      hnorm hval hlen
    refine ⟨_, by rw [hrun], ?_, ?_, ?_, ?_, ?_, ?_⟩
    · simp only [List.length_append, List.length_map, hlen, hv.1]
    · simp only [List.length_append, List.length_cons, hlen]
    · exact List.take_left _ _
    · exact List.take_left' hv.1
    · exact List.drop_left _ _
    · exact List.drop_left' hv.1

/-- C1 counterexample: with `k = 2` explicitly supplied initial values and
`call_budget = 5`, the returned value sequence has length `7`, not `5` as
the claim states. -/
theorem trace_lengths_cex :
    Except.map (fun r : OptResult Unit => r.func_vals.length)
      (dummy_minimize uctor (constSampler pt0) urng (fun _ => PyObj.num 0) () 5
        (some (.pylist [.pylist [.num 1], .pylist [.num 9]]))
        (some (.pylist [.num 4, .num 36])) none).result = Except.ok 7 ∧
    (7 : Nat) ≠ 5 := ⟨rfl, by decide⟩

/-- C1 witness: the amended theorem applied at concrete runs on both paths. -/
theorem trace_lengths_witness :
    (∃ res, (dummy_minimize uctor (constSampler pt0) urng (fun _ => PyObj.num 0)
        () 5 (some (.pylist [.pylist [.num 1], .pylist [.num 9]]))
        none none).result = .ok res ∧ res.func_vals.length = 5) ∧
    (∃ res, (dummy_minimize uctor (constSampler pt0) urng (fun _ => PyObj.num 0)
        () 5 (some (.pylist [.pylist [.num 1], .pylist [.num 9]]))
        (some (.pylist [.num 4, .num 36])) none).result = .ok res ∧
      res.func_vals.length = 7) := by
  have h := trace_lengths uctor (constSampler pt0) urng (fun _ => PyObj.num 0)
    () 5 (some (.pylist [.pylist [.num 1], .pylist [.num 9]])) none
    (.pylist [.num 1]) [.pylist [.num 9]] rfl
  constructor
  · obtain ⟨res, hok, hl, -⟩ := h.1 rfl (by decide) rfl
    exact ⟨res, hok, by simpa using hl⟩
  · obtain ⟨res, hok, hl, -⟩ := h.2 (.pylist [.num 4, .num 36])
      [.num 4, .num 36] rfl rfl
    exact ⟨res, hok, by simpa using hl⟩

/-- C2 (amended): when `k` initial values are supplied explicitly together
with `k` initial points, the objective is never invoked at the initial
points (the supplied values short-circuit those evaluations) but the fresh
budget is not reduced: the objective is invoked on exactly the `n_calls`
freshly sampled points, i.e. exactly `n_calls` times, not `n_calls - k`
times. -/
theorem objective_call_count {Dims Space RNG : Type}
    (Space_ctor : Dims → Space) (Space_rvs : Space → Int → RNG → List PyObj)
    (check_random_state : Option Int → RNG) (func : PyObj → PyObj)
    (dimensions : Dims) (n_calls : Int) (x0 : Option PyObj) (rs : Option Int)
    (p : PyObj) (rest : List PyObj) (yv : PyObj) (y0l : List PyObj)
    (hnorm : normalize_x0 x0 = .ok (p :: rest))
    (hval : validate_y0 (p :: rest) yv = .ok y0l)
    (hlen : (Space_rvs (Space_ctor dimensions) n_calls
      (check_random_state rs)).length = n_calls.toNat) :
    (dummy_minimize Space_ctor Space_rvs check_random_state func dimensions
      n_calls x0 (some yv) rs).calls =
      Space_rvs (Space_ctor dimensions) n_calls (check_random_state rs) ∧
    (dummy_minimize Space_ctor Space_rvs check_random_state func dimensions
      n_calls x0 (some yv) rs).calls.length = n_calls.toNat := by
  obtain ⟨xb, yb, hrun⟩ := dummy_minimize_runB Space_ctor Space_rvs
    check_random_state func dimensions n_calls x0 rs p rest yv y0l
    hnorm hval hlen
  rw [hrun]
  exact ⟨rfl, hlen⟩

/-- C2 counterexample: scenario `initial_points=[[1],[9]]`,
`initial_values=[4, 36]`, `call_budget=5`: the objective is invoked 5 times,
not `5 - 2 = 3` times as the claim states. -/
theorem objective_call_count_cex :
    (dummy_minimize uctor (constSampler pt0) urng (fun _ => PyObj.num 0) () 5
      (some (.pylist [.pylist [.num 1], .pylist [.num 9]]))
      (some (.pylist [.num 4, .num 36])) none).calls.length = 5 ∧
    (5 : Nat) ≠ 5 - 2 := ⟨rfl, by decide⟩

/-- C2 witness: the amended theorem applied at a concrete run. -/
theorem objective_call_count_witness :
    (dummy_minimize uctor (constSampler pt0) urng (fun _ => PyObj.num 0) () 5
      (some (.pylist [.pylist [.num 1], .pylist [.num 9]]))
      (some (.pylist [.num 4, .num 36])) none).calls =
      constSampler pt0 () 5 () ∧
    (dummy_minimize uctor (constSampler pt0) urng (fun _ => PyObj.num 0) () 5
      (some (.pylist [.pylist [.num 1], .pylist [.num 9]]))
      (some (.pylist [.num 4, .num 36])) none).calls.length = (5 : Int).toNat :=
  objective_call_count uctor (constSampler pt0) urng (fun _ => PyObj.num 0) () 5
    (some (.pylist [.pylist [.num 1], .pylist [.num 9]])) none
    (.pylist [.num 1]) [.pylist [.num 9]] (.pylist [.num 4, .num 36])
    [.num 4, .num 36] rfl rfl rfl

/-- C3: for every completed run whose value sequence is all-scalar, the
returned best value `res.fun` is the entry of `func_vals` at `np.argmin`,
the returned best point `res.x` is the entry of `x_iters` at the same
index, the best value is a minimum of the full value sequence, and every
entry before the selected index is strictly larger (first-occurrence
tie-break). -/
theorem best_selection {Dims Space RNG : Type}
    (Space_ctor : Dims → Space) (Space_rvs : Space → Int → RNG → List PyObj)
    (check_random_state : Option Int → RNG) (func : PyObj → PyObj)
    (dimensions : Dims) (n_calls : Int) (x0 y0 : Option PyObj)
    (rs : Option Int) (res : OptResult Space)
    (hok : (dummy_minimize Space_ctor Space_rvs check_random_state func
      dimensions n_calls x0 y0 rs).result = .ok res)
    (hsc : ∀ v ∈ res.func_vals, np_isscalar v = true) :
    res.func_vals.get? (argminIdx res.func_vals) = some res.fun' ∧
    res.x_iters.get? (argminIdx res.func_vals) = some res.x ∧
    (∀ v ∈ res.func_vals, pyLt v res.fun' = false) ∧
    (∀ j, j < argminIdx res.func_vals → ∀ v, res.func_vals.get? j = some v →
      pyLt res.fun' v = true) := by
  obtain ⟨x0l, r, y, -, -, hX, hyv, ha⟩ := dummy_minimize_ok_struct hok
  subst hyv
  have hk := assemble_eq_ok ha
  have hfun := hk.2.2.2.2.1
  have hxx := hk.2.2.2.2.2
  rw [← hX] at hxx
  have hspec := argminIdx_spec res.func_vals hsc res.fun' hfun
  exact ⟨hfun, hxx, hspec.1, hspec.2⟩

/-- C3 witness: the theorem applied to a concrete completed run with values
`[25, 9]`. -/
theorem best_selection_witness :
    ([PyObj.num 25, PyObj.num 9].get?
      (argminIdx [PyObj.num 25, PyObj.num 9]) = some (PyObj.num 9)) ∧
    (∀ v ∈ [PyObj.num 25, PyObj.num 9], pyLt v (PyObj.num 9) = false) := by
  have h := best_selection (fun _ : Unit => ())
    (fun _ _ _ => [PyObj.pylist [PyObj.num 5], PyObj.pylist [PyObj.num 3]])
    urng
    (fun q => match q with
      | PyObj.pylist [PyObj.num a] => PyObj.num (a * a)
      | _ => PyObj.num 0)
    () 2 none none none
    ⟨.pylist [.num 3], .num 9, [.num 25, .num 9],
      [.pylist [.num 5], .pylist [.num 3]], (), []⟩
    rfl (by decide)
  exact ⟨h.1, h.2.2.1⟩

/-- C4: `dummy_minimize` is deterministic in its seed — two runs with
identical collaborators, objective, dimensions, budget, initial
observations and equal seeds are equal — and in every successful run all
fresh points come from the single `space.rvs` call whose argument is the
recorded `sampleReq`, applied to the normalized generator. -/
theorem seed_determinism {Dims Space RNG : Type}
    (Space_ctor : Dims → Space) (Space_rvs : Space → Int → RNG → List PyObj)
    (check_random_state : Option Int → RNG) (func : PyObj → PyObj)
    (dimensions : Dims) (n_calls : Int) (x0 y0 : Option PyObj)
    (s1 s2 : Option Int) (hs : s1 = s2) :
    dummy_minimize Space_ctor Space_rvs check_random_state func dimensions
      n_calls x0 y0 s1 =
    dummy_minimize Space_ctor Space_rvs check_random_state func dimensions
      n_calls x0 y0 s2 ∧
    (∀ x0l res, normalize_x0 x0 = .ok x0l →
      (dummy_minimize Space_ctor Space_rvs check_random_state func dimensions
        n_calls x0 y0 s1).result = .ok res →
      ∃ r, (dummy_minimize Space_ctor Space_rvs check_random_state func
          dimensions n_calls x0 y0 s1).sampleReq = some r ∧
        res.x_iters = x0l ++ Space_rvs (Space_ctor dimensions) r
          (check_random_state s1)) := by
  subst hs
  refine ⟨rfl, fun x0l res hnorm hok => ?_⟩
  obtain ⟨x0l2, r, y, hnorm2, hreq, hX, -, -⟩ := dummy_minimize_ok_struct hok
  rw [hnorm] at hnorm2
  obtain rfl := Except.ok.inj hnorm2
  exact ⟨r, hreq, hX⟩

/-- C4 witness: the theorem applied at a concrete run with seed 0. -/
theorem seed_determinism_witness :
    dummy_minimize uctor (constSampler pt0) urng (fun _ => PyObj.num 0) () 3
      none none (some 0) =
    dummy_minimize uctor (constSampler pt0) urng (fun _ => PyObj.num 0) () 3
      none none (some 0) ∧
    ∃ r, (dummy_minimize uctor (constSampler pt0) urng (fun _ => PyObj.num 0)
        () 3 none none (some 0)).sampleReq = some r ∧
      ([pt0, pt0, pt0] : List PyObj) = [] ++ constSampler pt0 () r () := by
  have h := seed_determinism uctor (constSampler pt0) urng
    (fun _ => PyObj.num 0) () 3 none none (some 0) (some 0) rfl
  exact ⟨h.1, h.2 []
    ⟨pt0, .num 0, [.num 0, .num 0, .num 0], [pt0, pt0, pt0], (), []⟩ rfl rfl⟩

/-- C5 (amended): the fast-fail scalarity check fires on the first initial
point when initial values are computed (`y0 = None`, nonempty `x0`), and on
the first freshly sampled point when no initial observations exist; in both
cases a non-scalar first evaluation aborts the run with the
non-scalar-return error after exactly one objective call.  (When explicit
initial values accompany initial points, no scalarity check is performed on
any fresh evaluation — see the counterexample.) -/
theorem first_call_scalarity {Dims Space RNG : Type}
    (Space_ctor : Dims → Space) (Space_rvs : Space → Int → RNG → List PyObj)
    (check_random_state : Option Int → RNG) (func : PyObj → PyObj)
    (dimensions : Dims) (n_calls : Int) (x0 y0 : Option PyObj)
    (rs : Option Int) :
    (∀ p rest, normalize_x0 x0 = .ok (p :: rest) →
      np_isscalar (func p) = false →
      dummy_minimize Space_ctor Space_rvs check_random_state func dimensions
        n_calls x0 none rs = ⟨[p], none, .error .nonScalarReturn⟩) ∧
    (∀ q qs, normalize_x0 x0 = .ok [] →
      Space_rvs (Space_ctor dimensions) n_calls (check_random_state rs) =
        q :: qs →
      np_isscalar (func q) = false →
      dummy_minimize Space_ctor Space_rvs check_random_state func dimensions
        n_calls x0 y0 rs = ⟨[q], some n_calls, .error .nonScalarReturn⟩) := by
  constructor
  · intro p rest hnorm hscal
    rw [dummy_minimize_pathA _ _ _ _ _ _ _ _ _ _ hnorm,
      if_neg (by simp [hscal])]
  · intro q qs hnorm hq hscal
    rw [dummy_minimize_pathC _ _ _ _ _ _ _ _ _ hnorm,
      samplePhase_noInit_fail _ _ _ _ _ _ _ _ _ hq hscal]
    simp

/-- C5 counterexample: with explicit initial values the very first objective
evaluation of the run (the first fresh sample) returns a non-scalar, yet no
error is raised: the run performs a second objective call and completes
normally — refuting the claim that every run checks its first evaluation
and fails before any subsequent call. -/
theorem first_call_scalarity_cex :
    dummy_minimize uctor (constSampler pt0) urng (fun _ => PyObj.pylist []) ()
      2 (some (.pylist [.pylist [.num 1]])) (some (.pylist [.num 4])) none =
    ⟨[pt0, pt0], some 2,
      .ok ⟨.pylist [.num 1], .num 4, [.num 4, .pylist [], .pylist []],
        [.pylist [.num 1], pt0, pt0], (), []⟩⟩ := rfl

/-- C5 witness: the amended theorem applied on both fast-fail paths. -/
theorem first_call_scalarity_witness :
    dummy_minimize uctor (constSampler pt0) urng (fun _ => PyObj.pylist [])
      () 5 (some (.pylist [.pylist [.num 1]])) none none =
      ⟨[.pylist [.num 1]], none, .error .nonScalarReturn⟩ ∧
    dummy_minimize uctor (constSampler pt0) urng (fun _ => PyObj.pylist [])
      () 2 none none none = ⟨[pt0], some 2, .error .nonScalarReturn⟩ := by
  constructor
  · exact (first_call_scalarity uctor (constSampler pt0) urng
      (fun _ => PyObj.pylist []) () 5 (some (.pylist [.pylist [.num 1]]))
      none none).1 (.pylist [.num 1]) [] rfl rfl
  · exact (first_call_scalarity uctor (constSampler pt0) urng
      (fun _ => PyObj.pylist []) () 2 none none none).2 pt0 [pt0] rfl rfl rfl

/-- C6: with initial points present and explicit initial values, the run
fails with the length-mismatch error when the coerced value list (a single
scalar is wrapped into a one-element list) has a different length than the
initial points, with the non-scalar-values error when some element is not a
scalar, and with the invalid-values-type error when the values argument is
neither iterable nor a number; in every case the failure happens before any
objective call and before the sampler is reached (`calls = []`,
`sampleReq = none`). -/
theorem y0_validation {Dims Space RNG : Type}
    (Space_ctor : Dims → Space) (Space_rvs : Space → Int → RNG → List PyObj)
    (check_random_state : Option Int → RNG) (func : PyObj → PyObj)
    (dimensions : Dims) (n_calls : Int) (x0 : Option PyObj) (rs : Option Int)
    (p : PyObj) (rest : List PyObj)
    (hnorm : normalize_x0 x0 = .ok (p :: rest)) :
    (∀ yv ys, iterElems yv = some ys → (p :: rest).length ≠ ys.length →
      dummy_minimize Space_ctor Space_rvs check_random_state func dimensions
        n_calls x0 (some yv) rs = ⟨[], none, .error .lengthMismatch⟩) ∧
    (∀ yv ys, iterElems yv = some ys → (p :: rest).length = ys.length →
      ys.all np_isscalar = false →
      dummy_minimize Space_ctor Space_rvs check_random_state func dimensions
        n_calls x0 (some yv) rs = ⟨[], none, .error .nonScalarY0⟩) ∧
    (∀ a : Int, (p :: rest).length ≠ 1 →
      dummy_minimize Space_ctor Space_rvs check_random_state func dimensions
        n_calls x0 (some (.num a)) rs = ⟨[], none, .error .lengthMismatch⟩) ∧
    (∀ yv, iterElems yv = none → isNumber yv = false →
      dummy_minimize Space_ctor Space_rvs check_random_state func dimensions
        n_calls x0 (some yv) rs = ⟨[], none, .error .invalidY0Type⟩) := by
  refine ⟨?_, ?_, ?_, ?_⟩
  · intro yv ys hit hlen
    refine dummy_minimize_pathB_err _ _ _ _ _ _ _ _ _ _ _ _ hnorm ?_
    simp only [validate_y0, coerce_y0, hit]
    rw [if_pos hlen]
  · intro yv ys hit hlen hall
    refine dummy_minimize_pathB_err _ _ _ _ _ _ _ _ _ _ _ _ hnorm ?_
    simp only [validate_y0, coerce_y0, hit]
    rw [if_neg (by omega), if_pos (by simp [hall])]
  · intro a hlen1
    refine dummy_minimize_pathB_err _ _ _ _ _ _ _ _ _ _ _ _ hnorm ?_
    simp only [validate_y0, coerce_y0, iterElems, isNumber, if_true]
    rw [if_pos (by simpa using hlen1)]
  · intro yv hit hnum
    refine dummy_minimize_pathB_err _ _ _ _ _ _ _ _ _ _ _ _ hnorm ?_
    simp only [validate_y0, coerce_y0, hit, hnum]
    simp

/-- C6 witness: the theorem applied at concrete malformed values arguments. -/
theorem y0_validation_witness :
    dummy_minimize uctor (constSampler pt0) urng (fun _ => PyObj.num 0) () 5
      (some (.pylist [.pylist [.num 1]]))
      (some (.pylist [.num 4, .num 5])) none =
      ⟨[], none, .error .lengthMismatch⟩ ∧
    dummy_minimize uctor (constSampler pt0) urng (fun _ => PyObj.num 0) () 5
      (some (.pylist [.pylist [.num 1]])) (some (.pylist [.pylist []])) none =
      ⟨[], none, .error .nonScalarY0⟩ ∧
    dummy_minimize uctor (constSampler pt0) urng (fun _ => PyObj.num 0) () 5
      (some (.pylist [.pylist [.num 1], .pylist [.num 2]]))
      (some (.num 4)) none = ⟨[], none, .error .lengthMismatch⟩ ∧
    dummy_minimize uctor (constSampler pt0) urng (fun _ => PyObj.num 0) () 5
      (some (.pylist [.pylist [.num 1]])) (some .obj) none =
      ⟨[], none, .error .invalidY0Type⟩ := by
  have h1 := y0_validation uctor (constSampler pt0) urng (fun _ => PyObj.num 0)
    () 5 (some (.pylist [.pylist [.num 1]])) none (.pylist [.num 1]) [] rfl
  have h2 := y0_validation uctor (constSampler pt0) urng (fun _ => PyObj.num 0)
    () 5 (some (.pylist [.pylist [.num 1], .pylist [.num 2]])) none
    (.pylist [.num 1]) [.pylist [.num 2]] rfl
  exact ⟨h1.1 (.pylist [.num 4, .num 5]) [.num 4, .num 5] rfl (by decide),
    h1.2.1 (.pylist [.pylist []]) [.pylist []] rfl (by decide) (by decide),
    h2.2.2.1 4 (by decide),
    h1.2.2.2 .obj rfl rfl⟩

/-- C7 (amended): a list whose first element is a list is used as-is as the
list of initial points; a flat list (first element not a list) is wrapped
into a one-element list and behaves identically to passing it wrapped; but
not every non-list-like input fails with the invalid-points error: only an
input whose first element is a list while the input itself is not a list
(e.g. a tuple of lists) raises it, a non-subscriptable input fails with a
subscripting type error instead, and a flat non-list sequence such as a
tuple of numbers is wrapped and accepted (see the counterexample). -/
theorem x0_normalization {Dims Space RNG : Type}
    (Space_ctor : Dims → Space) (Space_rvs : Space → Int → RNG → List PyObj)
    (check_random_state : Option Int → RNG) (func : PyObj → PyObj)
    (dimensions : Dims) (n_calls : Int) (y0 : Option PyObj)
    (rs : Option Int) :
    (∀ q t, isList q = true →
      normalize_x0 (some (.pylist (q :: t))) = .ok (q :: t)) ∧
    (∀ h t, isList h = false →
      dummy_minimize Space_ctor Space_rvs check_random_state func dimensions
        n_calls (some (.pylist (h :: t))) y0 rs =
      dummy_minimize Space_ctor Space_rvs check_random_state func dimensions
        n_calls (some (.pylist [.pylist (h :: t)])) y0 rs) ∧
    (∀ h t, isList h = true →
      dummy_minimize Space_ctor Space_rvs check_random_state func dimensions
        n_calls (some (.tuple (h :: t))) y0 rs =
        ⟨[], none, .error .invalidX0Type⟩) ∧
    (∀ a : Int, dummy_minimize Space_ctor Space_rvs check_random_state func
        dimensions n_calls (some (.num a)) y0 rs =
        ⟨[], none, .error .typeError⟩) ∧
    (dummy_minimize Space_ctor Space_rvs check_random_state func dimensions
      n_calls (some .obj) y0 rs = ⟨[], none, .error .typeError⟩) := by
  refine ⟨?_, ?_, ?_, ?_, ?_⟩
  · intro q t hq
    simp [normalize_x0, getItem, hq]
  · intro h t hh
    refine dummy_minimize_congr_x0 _ _ _ _ _ _ _ _ _ _ ?_
    have h1 : normalize_x0 (some (.pylist (h :: t))) = .ok [.pylist (h :: t)] := by
      simp [normalize_x0, getItem, hh]
    have h2 : normalize_x0 (some (.pylist [.pylist (h :: t)])) =
        .ok [.pylist (h :: t)] := by
      simp [normalize_x0, getItem, isList]
    rw [h1, h2]
  · intro h t hh
    refine dummy_minimize_normErr _ _ _ _ _ _ _ _ _ _ ?_
    simp [normalize_x0, getItem, hh]
  · intro a
    exact dummy_minimize_normErr _ _ _ _ _ _ _ _ _ _ rfl
  · exact dummy_minimize_normErr _ _ _ _ _ _ _ _ _ _ rfl

/-- C7 counterexample: a tuple of numbers — a non-list-like `initial_points`
input — is wrapped like a flat point and the run completes normally, with
no invalid-argument error, refuting the claim that any non-list-like input
fails. -/
theorem x0_normalization_cex :
    dummy_minimize uctor (constSampler pt0) urng (fun _ => PyObj.num 7) () 2
      (some (.tuple [.num 1, .num 2])) none none =
    ⟨[.tuple [.num 1, .num 2], pt0], some 1,
      .ok ⟨.tuple [.num 1, .num 2], .num 7, [.num 7, .num 7],
        [.tuple [.num 1, .num 2], pt0], (), []⟩⟩ := rfl

/-- C7 witness: the amended theorem applied at concrete inputs. -/
theorem x0_normalization_witness :
    normalize_x0 (some (.pylist [.pylist [.num 1], .pylist [.num 9]])) =
      .ok [.pylist [.num 1], .pylist [.num 9]] ∧
    dummy_minimize uctor (constSampler pt0) urng (fun _ => PyObj.num 0) () 3
      (some (.pylist [.num 5])) none none =
    dummy_minimize uctor (constSampler pt0) urng (fun _ => PyObj.num 0) () 3
      (some (.pylist [.pylist [.num 5]])) none none ∧
    dummy_minimize uctor (constSampler pt0) urng (fun _ => PyObj.num 0) () 3
      (some (.tuple [.pylist [.num 5]])) none none =
      ⟨[], none, .error .invalidX0Type⟩ ∧
    dummy_minimize uctor (constSampler pt0) urng (fun _ => PyObj.num 0) () 3
      (some (.num 5)) none none = ⟨[], none, .error .typeError⟩ := by
  have h := x0_normalization uctor (constSampler pt0) urng
    (fun _ => PyObj.num 0) () 3 none none
  exact ⟨(x0_normalization uctor (constSampler pt0) urng (fun _ => PyObj.num 0)
      () 3 none none).1 (.pylist [.num 1]) [.pylist [.num 9]] rfl,
    h.2.1 (.num 5) [] rfl, h.2.2.1 (.pylist [.num 5]) [] rfl, h.2.2.2.1 5⟩

/-- C8: when the caller supplies more initial points than the call budget
and no explicit initial values, the remaining budget
`n_calls - len(initial_values)` is non-positive and is passed as-is to the
space sampler: the recorded sampler request equals exactly that difference,
with no error raised and no clamping to zero. -/
theorem overbudget_sample_request {Dims Space RNG : Type}
    (Space_ctor : Dims → Space) (Space_rvs : Space → Int → RNG → List PyObj)
    (check_random_state : Option Int → RNG) (func : PyObj → PyObj)
    (dimensions : Dims) (n_calls : Int) (x0 : Option PyObj) (rs : Option Int)
    (p : PyObj) (rest : List PyObj)
    (hnorm : normalize_x0 x0 = .ok (p :: rest))
    (hscal : np_isscalar (func p) = true)
    (hover : n_calls < ((p :: rest).length : Int)) :
    (dummy_minimize Space_ctor Space_rvs check_random_state func dimensions
      n_calls x0 none rs).sampleReq =
      some (n_calls - (p :: rest).length) ∧
    n_calls - ((p :: rest).length : Int) ≤ 0 := by
  rw [dummy_minimize_pathA _ _ _ _ _ _ _ _ _ _ hnorm, if_pos hscal]
  constructor
  · rw [samplePhase_sampleReq]
    simp only [List.length_cons]
    norm_num
  · omega

/-- C8 witness: the theorem applied at a concrete run with 2 initial points
and budget 1: the sampler request is `-1`. -/
theorem overbudget_sample_request_witness :
    (dummy_minimize uctor (constSampler pt0) urng (fun _ => PyObj.num 0) () 1
      (some (.pylist [.pylist [.num 1], .pylist [.num 9]]))
      none none).sampleReq =
      some ((1 : Int) -
        (([PyObj.pylist [.num 1], PyObj.pylist [.num 9]] : List PyObj).length : Int)) ∧
    (1 : Int) - (([PyObj.pylist [.num 1], PyObj.pylist [.num 9]] : List PyObj).length : Int) ≤ 0 :=
  overbudget_sample_request uctor (constSampler pt0) urng (fun _ => PyObj.num 0)
    () 1 (some (.pylist [.pylist [.num 1], .pylist [.num 9]])) none
    (.pylist [.num 1]) [.pylist [.num 9]] rfl rfl (by decide)

/-- C9: an explicit empty list as `initial_points` is not treated like
`None`: normalization subscripts `x0[0]` before any type check, so the run
fails immediately with the out-of-bounds indexing error (no objective call,
no sampler call), whereas passing `None` reaches the sampler — the two runs
are never equal. -/
theorem empty_x0_index_error {Dims Space RNG : Type}
    (Space_ctor : Dims → Space) (Space_rvs : Space → Int → RNG → List PyObj)
    (check_random_state : Option Int → RNG) (func : PyObj → PyObj)
    (dimensions : Dims) (n_calls : Int) (y0 : Option PyObj)
    (rs : Option Int) :
    dummy_minimize Space_ctor Space_rvs check_random_state func dimensions
      n_calls (some (.pylist [])) y0 rs = ⟨[], none, .error .indexError⟩ ∧
    dummy_minimize Space_ctor Space_rvs check_random_state func dimensions
      n_calls (some (.pylist [])) y0 rs ≠
    dummy_minimize Space_ctor Space_rvs check_random_state func dimensions
      n_calls none y0 rs := by
  have he := dummy_minimize_normErr Space_ctor Space_rvs check_random_state
    func dimensions n_calls (some (.pylist [])) y0 rs .indexError rfl
  refine ⟨he, ?_⟩
  intro hc
  rw [he, dummy_minimize_pathC Space_ctor Space_rvs check_random_state func
    dimensions n_calls none y0 rs rfl] at hc
  have h2 := congrArg RunOut.sampleReq hc
  rw [samplePhase_sampleReq] at h2
  simp at h2

/-- C9 witness: the theorem applied at a concrete run. -/
theorem empty_x0_index_error_witness :
    dummy_minimize uctor (constSampler pt0) urng (fun _ => PyObj.num 0) () 3
      (some (.pylist [])) none none = ⟨[], none, .error .indexError⟩ ∧
    dummy_minimize uctor (constSampler pt0) urng (fun _ => PyObj.num 0) () 3
      (some (.pylist [])) none none ≠
    dummy_minimize uctor (constSampler pt0) urng (fun _ => PyObj.num 0) () 3
      none none none :=
  empty_x0_index_error uctor (constSampler pt0) urng (fun _ => PyObj.num 0)
    () 3 none none

/-- C10: when `initial_values` is supplied but `initial_points` is `None`,
the supplied values are silently discarded: the run is literally equal to
the run with neither argument, and on completion it is a pure random search
whose objective-call trace is exactly the `n_calls` sampled points and
whose value trace is exactly their evaluations. -/
theorem y0_discarded_without_x0 {Dims Space RNG : Type}
    (Space_ctor : Dims → Space) (Space_rvs : Space → Int → RNG → List PyObj)
    (check_random_state : Option Int → RNG) (func : PyObj → PyObj)
    (dimensions : Dims) (n_calls : Int) (yv : PyObj) (rs : Option Int) :
    dummy_minimize Space_ctor Space_rvs check_random_state func dimensions
      n_calls none (some yv) rs =
    dummy_minimize Space_ctor Space_rvs check_random_state func dimensions
      n_calls none none rs ∧
    (∀ q qs, Space_rvs (Space_ctor dimensions) n_calls
        (check_random_state rs) = q :: qs →
      (Space_rvs (Space_ctor dimensions) n_calls
        (check_random_state rs)).length = n_calls.toNat →
      np_isscalar (func q) = true →
      ∃ res, (dummy_minimize Space_ctor Space_rvs check_random_state func
          dimensions n_calls none (some yv) rs).result = .ok res ∧
        (dummy_minimize Space_ctor Space_rvs check_random_state func
          dimensions n_calls none (some yv) rs).calls = q :: qs ∧
        res.func_vals = (q :: qs).map func ∧ res.x_iters = q :: qs) := by
  constructor
  · rw [dummy_minimize_pathC Space_ctor Space_rvs check_random_state func
      dimensions n_calls none (some yv) rs rfl,
      dummy_minimize_pathC Space_ctor Space_rvs check_random_state func
      dimensions n_calls none none rs rfl]
  · intro q qs hq hlen hscal
    obtain ⟨xb, yb, hrun⟩ := dummy_minimize_runC Space_ctor Space_rvs
      check_random_state func dimensions n_calls none (some yv) rs q qs
      rfl hq hlen hscal
    rw [hrun]
    exact ⟨_, rfl, rfl, rfl, rfl⟩

/-- C10 witness: the theorem applied at a concrete run. -/
theorem y0_discarded_without_x0_witness :
    dummy_minimize uctor (constSampler pt0) urng (fun _ => PyObj.num 0) () 2
      none (some (.num 4)) none =
    dummy_minimize uctor (constSampler pt0) urng (fun _ => PyObj.num 0) () 2
      none none none ∧
    ∃ res, (dummy_minimize uctor (constSampler pt0) urng
        (fun _ => PyObj.num 0) () 2 none (some (.num 4)) none).result =
        .ok res ∧
      (dummy_minimize uctor (constSampler pt0) urng (fun _ => PyObj.num 0) ()
        2 none (some (.num 4)) none).calls = [pt0, pt0] ∧
      res.func_vals = ([pt0, pt0] : List PyObj).map (fun _ => PyObj.num 0) ∧
      res.x_iters = [pt0, pt0] := by
  have h := y0_discarded_without_x0 uctor (constSampler pt0) urng
    (fun _ => PyObj.num 0) () 2 (.num 4) none
  exact ⟨h.1, h.2 pt0 [pt0] rfl rfl rfl⟩

end SkoptDummy
